import Mathlib

/-!
Verification of the quote-fetching logic of `CMPE285_HW2.py`.

The Python module fetches a stock quote from the yfinance backend and derives
a `Quote` value (symbol, company, price, change, percent).  We embed the
module shallowly:

* Numbers are exact rationals (`ℚ`).  Python's `round(x, 2)` is modelled by
  `pyRound2`, which rounds half to even, matching Python's `round` semantics
  on exact values.
* The external backend (`yf.Ticker`) is modelled by a `Backend` value that
  records the observable answers of each backend call: whether constructing
  the ticker raises, what `get_info` returns, and what `history` returns.
  A raised exception is modelled as data (`Option`/`Except` error message),
  since the Python code converts every exception into a `QuoteError`.
* The pandas history frame is a list of daily rows; an all-NaN row (the kind
  removed by `dropna(how="all")`) is modelled as `none`.
* `str.strip` and `str.upper` are modelled by `pyStrip`/`pyUpper` over the
  character list of the string (ASCII whitespace and letters; the inputs of
  interest are ASCII tickers).
* An exception escaping a function is modelled with `Except String`, the
  string being the exception's message.
-/

/-- Round a rational to the nearest integer, halves to even: the semantics of
Python's builtin `round` on exact values. -/
def roundHalfEven (x : ℚ) : ℤ :=
  let n := ⌊x⌋
  let f := x - n
  if f < 1/2 then n
  else if 1/2 < f then n + 1
  else if n % 2 = 0 then n else n + 1

/-- Python's `round(x, 2)` on exact rationals. -/
def pyRound2 (x : ℚ) : ℚ := (roundHalfEven (x * 100) : ℚ) / 100

/-- The ASCII whitespace characters removed by Python's `str.strip()`. -/
def pyIsSpace (c : Char) : Bool :=
  c = ' ' || c = '\t' || c = '\n' || c = '\r' || c = '\x0b' || c = '\x0c'

/-- Python's `str.strip()`: remove leading and trailing whitespace. -/
def pyStrip (s : String) : String :=
  ⟨((s.data.dropWhile pyIsSpace).reverse.dropWhile pyIsSpace).reverse⟩

/-- Uppercase one ASCII letter, as Python's `str.upper()` does per character. -/
def pyUpperChar (c : Char) : Char :=
  if 'a' ≤ c ∧ c ≤ 'z' then Char.ofNat (c.toNat - 32) else c

/-- Python's `str.upper()`. -/
def pyUpper (s : String) : String := ⟨s.data.map pyUpperChar⟩

/-- One non-all-NaN daily bar of the history frame: its `Open` and `Close`
column values. -/
structure Row where
  openP : ℚ
  closeP : ℚ

/-- The pandas frame returned by `ticker.history(period="5d", interval="1d")`:
its rows in chronological order (`none` is an all-NaN row, which
`dropna(how="all")` removes) and whether a `"Close"` column is present. -/
structure HistDF where
  rows : List (Option Row)
  hasClose : Bool

/-- The observable behaviour of the yfinance backend for one symbol.

* `tickerError`: `some msg` when `yf.Ticker(symbol)` raises with message `msg`.
* `infoFails`: `ticker.get_info()` raises.
* `longName` / `shortName`: the `info.get(...)` results (`none` = key absent;
  `some ""` = present but empty, which Python's `or` also treats as falsy).
* `histResult`: the history frame, or the message of the exception
  `ticker.history(...)` raises. -/
structure Backend where
  tickerError : Option String
  infoFails : Bool
  longName : Option String
  shortName : Option String
  histResult : Except String HistDF

/-- The `Quote` dataclass. -/
structure Quote where
  symbol : String
  company : String
  price : ℚ
  change : ℚ
  percent : ℚ

/-- Python's `a or b` for an optional string `a`: `b` when `a` is `None` or
the empty string. -/
def pyOrStr (a : Option String) (b : String) : String :=
  match a with
  | some s => if s = "" then b else s
  | none => b

/-- `_get_name_safe(ticker, symbol)`:
`info.get("longName") or info.get("shortName") or symbol.upper()`, with every
exception swallowed into the `symbol.upper()` fallback. -/
def getNameSafe (b : Backend) (symbol : String) : String :=
  if b.infoFails then pyUpper symbol
  else pyOrStr b.longName (pyOrStr b.shortName (pyUpper symbol))

/-- `hist.dropna(how="all")`: drop the all-NaN rows. -/
def dropnaAll (rows : List (Option Row)) : List Row := rows.filterMap id

/-- `_get_prices_safe(ticker)`.  Inside its `try`, it raises
`QuoteError("No valid price data found.")` when the dropped frame is empty or
has no `Close` column; otherwise `last_price` is the last row's close and
`prev_close` is the second-to-last row's close (at least 2 rows) or the last
row's open (exactly 1 row).  The `except Exception as e` clause catches every
exception raised in the `try` — including that inner `QuoteError`, since
`QuoteError` subclasses `Exception` — and raises
`QuoteError(f"No valid price data found. ({e})")`. -/
def getPricesSafe (b : Backend) : Except String (ℚ × ℚ) :=
  match b.histResult with
  | .error e => .error ("No valid price data found. (" ++ e ++ ")")
  | .ok df =>
    match (dropnaAll df.rows).reverse, df.hasClose with
    | [], _ => .error "No valid price data found. (No valid price data found.)"
    | _ :: _, false => .error "No valid price data found. (No valid price data found.)"
    | [r], true => .ok (r.closeP, r.openP)
    | r :: r2 :: _, true => .ok (r.closeP, r2.closeP)

/-- `fetch_quote(symbol)`.  Rejects empty/whitespace-only input
(`not symbol or not symbol.strip()` is equivalent to `symbol.strip() == ""`),
normalizes the symbol, queries the backend, and builds the `Quote`.
`QuoteError`s raised by `_get_prices_safe` pass through unchanged
(`except QuoteError as qe: raise qe`); any other exception raised inside the
`try` — modelled by `tickerError`, since the two helper calls swallow or wrap
their own exceptions — becomes
`QuoteError(f"Error retrieving data for {symbol}: {e}")`. -/
def fetchQuote (b : Backend) (symbol : String) : Except String Quote :=
  if pyStrip symbol = "" then .error "Stock symbol cannot be empty."
  else
    let sym := pyUpper (pyStrip symbol)
    match b.tickerError with
    | some e => .error ("Error retrieving data for " ++ sym ++ ": " ++ e)
    | none =>
      let companyName := getNameSafe b sym
      match getPricesSafe b with
      | .error msg => .error msg
      | .ok (lastPrice, prevClose) =>
        let change := lastPrice - prevClose
        let percent := if prevClose ≠ 0 then change / prevClose * 100 else 0
        .ok { symbol := sym
              company := companyName ++ " (" ++ sym ++ ")"
              price := pyRound2 lastPrice
              change := pyRound2 change
              percent := pyRound2 percent }

/-- Python's `f"{x:.2f}"` on exact rationals: round half to even to two
decimal places and print with exactly two fractional digits.  (The model is
exact-rational, so the sign of a negative value that rounds to zero is
dropped; IEEE negative zero is outside the model.) -/
def fmt2 (x : ℚ) : String :=
  let n := roundHalfEven (x * 100)
  let m := n.natAbs
  (if n < 0 then "-" else "")
    ++ toString (m / 100) ++ "."
    ++ (if m % 100 < 10 then "0" else "") ++ toString (m % 100)

/-- The sign prefix `"+" if v > 0 else "-" if v < 0 else ""` computed by
`render_quote` for the change and again for the percent. -/
def signStr (v : ℚ) : String :=
  if 0 < v then "+" else if v < 0 then "-" else ""

/-- `render_quote(q)`.  The first line comes from the wall clock
(`format_timestamp()`); it is passed in as `ts`. -/
def renderQuote (ts : String) (q : Quote) : String :=
  ts ++ "\n\n"
    ++ q.company ++ "\n\n"
    ++ fmt2 q.price ++ " "
    ++ signStr q.change ++ fmt2 |q.change|
    ++ " (" ++ signStr q.percent ++ fmt2 |q.percent| ++ "%)\n"

/-! ### Concrete backends used as test inputs -/

/-- A backend answering with the spec's running example: previous close
`100.00`, last price `105.50`. -/
def bStd : Backend :=
  { tickerError := none, infoFails := false
    longName := some "Apple Inc.", shortName := none
    histResult := .ok ⟨[some ⟨98, 100⟩, some ⟨101, 1055/10⟩], true⟩ }

/-- The quote the code builds from `bStd`. -/
def quoteStd : Quote :=
  { symbol := "AAPL", company := "Apple Inc. (AAPL)"
    price := 1055/10, change := 55/10, percent := 55/10 }

/-- A backend whose history has a single valid row with `Open = 0`: the code
takes `prev_close = 0` from it. -/
def bZero : Backend :=
  { tickerError := none, infoFails := false
    longName := none, shortName := none
    histResult := .ok ⟨[some ⟨0, 10⟩], true⟩ }

/-- The quote the code builds from `bZero`: zero previous close, percent 0. -/
def quoteZero : Quote :=
  { symbol := "IBM", company := "IBM (IBM)"
    price := 10, change := 10, percent := 0 }

/-- A backend whose history comes back as an empty frame. -/
def bEmpty : Backend :=
  { tickerError := none, infoFails := false
    longName := none, shortName := none
    histResult := .ok ⟨[], true⟩ }

/-- A backend with sub-cent prices (OTC quotes carry four decimals): previous
close `0.006`, last price `1.004`. -/
def bPenny : Backend :=
  { tickerError := none, infoFails := false
    longName := some "Penny Corp.", shortName := none
    histResult := .ok ⟨[some ⟨1, 6/1000⟩, some ⟨2, 1004/1000⟩], true⟩ }

/-- The quote the code builds from `bPenny`:
`round(1.004 - 0.006, 2) = round(0.998, 2) = 1.00` and
`round(0.998 / 0.006 * 100, 2) = 16633.33`. -/
def quotePenny : Quote :=
  { symbol := "PNY", company := "Penny Corp. (PNY)"
    price := 1, change := 1, percent := 1663333/100 }

/-- A backend whose ticker construction raises (message `"boom"`). -/
def bBoom : Backend :=
  { tickerError := some "boom", infoFails := false
    longName := none, shortName := none
    histResult := .error "offline" }

/-! ### Shared helper lemmas -/

/-- Inversion on a successful fetch: the input passed the emptiness check,
ticker construction did not raise, the price lookup succeeded, and the quote
is built from its results exactly as the code does. -/
theorem fetchQuote_ok_elim (b : Backend) (s : String) (q : Quote)
    (h : fetchQuote b s = .ok q) :
    pyStrip s ≠ "" ∧ b.tickerError = none ∧
    ∃ last prev, getPricesSafe b = .ok (last, prev) ∧
      q = { symbol := pyUpper (pyStrip s)
            company := getNameSafe b (pyUpper (pyStrip s)) ++ " ("
                         ++ pyUpper (pyStrip s) ++ ")"
            price := pyRound2 last
            change := pyRound2 (last - prev)
            percent := pyRound2 (if prev ≠ 0 then (last - prev) / prev * 100 else 0) } := by
  by_cases hs : pyStrip s = ""
  · simp [fetchQuote, hs] at h
  · cases htk : b.tickerError with
    | some e => simp [fetchQuote, hs, htk] at h
    | none =>
      cases hgp : getPricesSafe b with
      | error m => simp [fetchQuote, hs, htk, hgp] at h
      | ok p =>
        obtain ⟨last, prev⟩ := p
        refine ⟨hs, rfl, last, prev, rfl, ?_⟩
        simp only [fetchQuote, if_neg hs, htk, hgp] at h
        injection h with h
        exact h.symm

/-- `pyRound2` fixes `0`. -/
theorem pyRound2_zero : pyRound2 0 = 0 := by
  norm_num [pyRound2, roundHalfEven, Int.floor_eq_iff]

theorem getPricesSafe_bStd : getPricesSafe bStd = .ok (1055/10, 100) := rfl

theorem fetchQuote_bStd : fetchQuote bStd "  aapl " = .ok quoteStd := by
  have hs : (pyStrip "  aapl " = "") = False := by
    simp only [eq_iff_iff, iff_false]
    decide
  simp only [fetchQuote, bStd, getPricesSafe, getNameSafe, pyOrStr, dropnaAll,
    List.filterMap_cons, List.filterMap_nil, id_eq, List.reverse_cons, List.reverse_nil,
    List.nil_append, List.cons_append, hs, if_false, quoteStd]
  norm_num [pyRound2, roundHalfEven, Int.floor_eq_iff]
  all_goals decide

theorem getPricesSafe_bZero : getPricesSafe bZero = .ok (10, 0) := rfl

theorem fetchQuote_bZero : fetchQuote bZero "ibm" = .ok quoteZero := by
  have hs : (pyStrip "ibm" = "") = False := by
    simp only [eq_iff_iff, iff_false]
    decide
  simp only [fetchQuote, bZero, getPricesSafe, getNameSafe, pyOrStr, dropnaAll,
    List.filterMap_cons, List.filterMap_nil, id_eq, List.reverse_cons, List.reverse_nil,
    List.nil_append, List.cons_append, hs, if_false, quoteZero]
  norm_num [pyRound2, roundHalfEven, Int.floor_eq_iff]
  all_goals decide

theorem getPricesSafe_bPenny : getPricesSafe bPenny = .ok (1004/1000, 6/1000) := rfl

theorem fetchQuote_bPenny : fetchQuote bPenny "pny" = .ok quotePenny := by
  have hs : (pyStrip "pny" = "") = False := by
    simp only [eq_iff_iff, iff_false]
    decide
  simp only [fetchQuote, bPenny, getPricesSafe, getNameSafe, pyOrStr, dropnaAll,
    List.filterMap_cons, List.filterMap_nil, id_eq, List.reverse_cons, List.reverse_nil,
    List.nil_append, List.cons_append, hs, if_false, quotePenny]
  norm_num [pyRound2, roundHalfEven, Int.floor_eq_iff]
  all_goals decide

/-! ### Claims -/

/-- C1 (counterexample): the change field is *not* always
`round(price - previous_close, 2)` when `price` is the Quote's (rounded)
price field.  With last price `1.004` and previous close `0.006` the code
stores `change = round(0.998, 2) = 1.00`, while
`round(price - previous_close, 2) = round(1.00 - 0.006, 2) = 0.99`. -/
theorem change_not_from_rounded_price :
    fetchQuote bPenny "pny" = .ok quotePenny ∧
    getPricesSafe bPenny = .ok (1004/1000, 6/1000) ∧
    quotePenny.change ≠ pyRound2 (quotePenny.price - 6/1000) := by
  refine ⟨fetchQuote_bPenny, getPricesSafe_bPenny, ?_⟩
  norm_num [quotePenny, pyRound2, roundHalfEven, Int.floor_eq_iff]

/-- C1 (amended): the change field is `round(last_price - previous_close, 2)`
computed from the *raw* last price; whenever the raw last price is already a
two-decimal value (so `price = last_price`), this coincides with
`round(price - previous_close, 2)`. -/
theorem change_rounds_raw_difference (b : Backend) (s : String) (q : Quote)
    (last prev : ℚ) (hq : fetchQuote b s = .ok q)
    (hp : getPricesSafe b = .ok (last, prev)) :
    q.change = pyRound2 (last - prev) ∧
    (pyRound2 last = last → q.change = pyRound2 (q.price - prev)) := by
  obtain ⟨-, -, last', prev', hp', hqe⟩ := fetchQuote_ok_elim b s q hq
  rw [hp] at hp'
  injection hp' with hp'
  obtain ⟨rfl, rfl⟩ : last = last' ∧ prev = prev' := Prod.mk.injEq .. ▸ hp'
  refine ⟨by rw [hqe], fun hl => ?_⟩
  rw [hqe]
  show pyRound2 (last - prev) = pyRound2 (pyRound2 last - prev)
  rw [hl]

/-- C1 (witness): on the spec's example data (`previous_close = 100.00`,
`last_price = 105.50`, already two-decimal) the amended relation holds. -/
theorem change_rounds_raw_difference_witness :
    quoteStd.change = pyRound2 (quoteStd.price - 100) :=
  (change_rounds_raw_difference bStd "  aapl " quoteStd (1055/10) 100
    fetchQuote_bStd getPricesSafe_bStd).2
    (by norm_num [pyRound2, roundHalfEven, Int.floor_eq_iff])

/-- C2: the percent field is `0` when the previous close is `0` (the guard
`if prev_close != 0` short-circuits the division), and otherwise equals
`round(change / prev_close * 100, 2)` with `change = last_price - prev_close`
the raw difference of line 105. -/
theorem percent_guarded (b : Backend) (s : String) (q : Quote)
    (last prev : ℚ) (hq : fetchQuote b s = .ok q)
    (hp : getPricesSafe b = .ok (last, prev)) :
    (prev = 0 → q.percent = 0) ∧
    (prev ≠ 0 → q.percent = pyRound2 ((last - prev) / prev * 100)) := by
  obtain ⟨-, -, last', prev', hp', hqe⟩ := fetchQuote_ok_elim b s q hq
  rw [hp] at hp'
  injection hp' with hp'
  obtain ⟨rfl, rfl⟩ : last = last' ∧ prev = prev' := Prod.mk.injEq .. ▸ hp'
  constructor
  · intro h0
    rw [hqe]
    show pyRound2 (if prev ≠ 0 then (last - prev) / prev * 100 else 0) = 0
    rw [if_neg (by simp [h0]), pyRound2_zero]
  · intro hne
    rw [hqe]
    show pyRound2 (if prev ≠ 0 then (last - prev) / prev * 100 else 0)
      = pyRound2 ((last - prev) / prev * 100)
    rw [if_pos hne]

/-- C2 (witness): the spec's example — a single history row with `Open = 0`
gives `previous_close = 0` and the percent field is `0`, no division error. -/
theorem percent_guarded_witness : quoteZero.percent = 0 :=
  (percent_guarded bZero "ibm" quoteZero 10 0
    fetchQuote_bZero getPricesSafe_bZero).1 rfl

/-- C3: an empty or whitespace-only symbol is rejected with
`QuoteError("Stock symbol cannot be empty.")`, uniformly in the backend —
the result does not depend on `b` at all, so no ticker object is consulted. -/
theorem empty_symbol_rejected (b : Backend) (s : String) (h : pyStrip s = "") :
    fetchQuote b s = .error "Stock symbol cannot be empty." := by
  simp [fetchQuote, h]

/-- C3 (witness): whitespace-only input `"   "` is rejected even on a backend
holding valid data. -/
theorem empty_symbol_rejected_witness :
    fetchQuote bStd "   " = .error "Stock symbol cannot be empty." :=
  empty_symbol_rejected bStd "   " (by decide)

/-- C4: on a returned history frame, after dropping all-NaN rows: with at
least two rows the result is (most recent close, second-most-recent close);
with exactly one row it is (that row's close, that row's open); with no valid
rows or no `Close` column the lookup fails with a `QuoteError`.  The last
price is the most recent row's close in both success cases. -/
theorem prices_window_selection (b : Backend) (df : HistDF)
    (h : b.histResult = .ok df) :
    (∀ pre r2 r1, df.hasClose = true → dropnaAll df.rows = pre ++ [r2, r1] →
        getPricesSafe b = .ok (r1.closeP, r2.closeP)) ∧
    (∀ r, df.hasClose = true → dropnaAll df.rows = [r] →
        getPricesSafe b = .ok (r.closeP, r.openP)) ∧
    ((dropnaAll df.rows = [] ∨ df.hasClose = false) →
        getPricesSafe b = .error "No valid price data found. (No valid price data found.)") := by
  refine ⟨?_, ?_, ?_⟩
  · intro pre r2 r1 hc hrows
    simp [getPricesSafe, h, hrows, hc, List.reverse_append]
  · intro r hc hrows
    simp [getPricesSafe, h, hrows, hc]
  · rintro (h0 | hc)
    · simp [getPricesSafe, h, h0]
    · cases hr : (dropnaAll df.rows).reverse with
      | nil => simp [getPricesSafe, h, hr]
      | cons a l => simp [getPricesSafe, h, hr, hc]

/-- C4 (witness): on the two-row frame of `bStd` the selected pair is
(most recent close `105.50`, second-most-recent close `100`). -/
theorem prices_window_selection_witness :
    getPricesSafe bStd = .ok ((⟨101, 1055/10⟩ : Row).closeP, (⟨98, 100⟩ : Row).closeP) :=
  (prices_window_selection bStd ⟨[some ⟨98, 100⟩, some ⟨101, 1055/10⟩], true⟩ rfl).1
    [] ⟨98, 100⟩ ⟨101, 1055/10⟩ rfl rfl

/-- C5 (counterexample): on an empty historical series the raised
`QuoteError`'s message is *not* exactly `"No valid price data found."` — the
inner `QuoteError` is caught by `_get_prices_safe`'s own
`except Exception as e` and re-wrapped, doubling the text. -/
theorem empty_series_message_cex :
    fetchQuote bEmpty "AAPL" =
      .error "No valid price data found. (No valid price data found.)" ∧
    fetchQuote bEmpty "AAPL" ≠ .error "No valid price data found." := by
  have heq : fetchQuote bEmpty "AAPL" =
      .error "No valid price data found. (No valid price data found.)" := by
    have hs : (pyStrip "AAPL" = "") = False := by
      simp only [eq_iff_iff, iff_false]
      decide
    simp [fetchQuote, bEmpty, getPricesSafe, dropnaAll, hs]
  refine ⟨heq, ?_⟩
  rw [heq]
  intro hcontra
  injection hcontra with hcontra
  exact absurd hcontra (by decide)

/-- C5 (amended): when the backend returns an empty historical series, the
fetch fails with a `QuoteError` whose message is
`"No valid price data found. (No valid price data found.)"` — the inner
message wrapped in itself by the re-raising `except` clause. -/
theorem empty_series_wrapped_message (b : Backend) (df : HistDF) (s : String)
    (h : b.histResult = .ok df) (hr : df.rows = [])
    (ht : b.tickerError = none) (hs : pyStrip s ≠ "") :
    fetchQuote b s =
      .error "No valid price data found. (No valid price data found.)" := by
  simp [fetchQuote, hs, ht, getPricesSafe, h, hr, dropnaAll]

/-- C5 (witness): the amended message fact at the concrete empty backend. -/
theorem empty_series_wrapped_message_witness :
    fetchQuote bEmpty "IBM" =
      .error "No valid price data found. (No valid price data found.)" :=
  empty_series_wrapped_message bEmpty ⟨[], true⟩ "IBM" rfl rfl rfl (by decide)

/-- C6 (counterexample): the company field is *not* the backend's display
name: on `bStd` the display name resolves to `"Apple Inc."` but the field
holds `"Apple Inc. (AAPL)"`. -/
theorem company_not_bare_name_cex :
    fetchQuote bStd "  aapl " = .ok quoteStd ∧
    getNameSafe bStd (pyUpper (pyStrip "  aapl ")) = "Apple Inc." ∧
    quoteStd.company ≠ "Apple Inc." := by
  refine ⟨fetchQuote_bStd, by decide, by decide⟩

/-- C6 (amended): the company field is the resolved display name followed by
`" (SYMBOL)"`.  The resolved name falls back to the (uppercased) symbol when
the metadata lookup raises or when both `longName` and `shortName` are
missing or empty, and a metadata-lookup failure never makes the fetch fail. -/
theorem company_name_with_suffix_and_fallback (b : Backend) (s : String)
    (q : Quote) (h : fetchQuote b s = .ok q) :
    q.company = getNameSafe b (pyUpper (pyStrip s)) ++ " ("
                  ++ pyUpper (pyStrip s) ++ ")" ∧
    (b.infoFails = true →
      getNameSafe b (pyUpper (pyStrip s)) = pyUpper (pyUpper (pyStrip s))) ∧
    (b.longName = none → b.shortName = none →
      getNameSafe b (pyUpper (pyStrip s)) = pyUpper (pyUpper (pyStrip s))) ∧
    (fetchQuote { b with infoFails := true } s).isOk = true := by
  obtain ⟨hs, ht, last, prev, hp, hqe⟩ := fetchQuote_ok_elim b s q h
  refine ⟨by rw [hqe], ?_, ?_, ?_⟩
  · intro hf
    simp [getNameSafe, hf]
  · intro hl hsn
    simp [getNameSafe, hl, hsn, pyOrStr]
  · have hp' : getPricesSafe { b with tickerError := none, infoFails := true } = .ok (last, prev) := hp
    simp [fetchQuote, hs, ht, hp', Except.isOk, Except.toBool]

/-- C6 (witness): flipping the metadata lookup to failing on `bStd` still
yields a successful fetch. -/
theorem company_name_with_suffix_and_fallback_witness :
    (fetchQuote { bStd with infoFails := true } "  aapl ").isOk = true :=
  (company_name_with_suffix_and_fallback bStd "  aapl " quoteStd
    fetchQuote_bStd).2.2.2

/-- C7: a successful fetch returns the input symbol trimmed of surrounding
whitespace and uppercased. -/
theorem symbol_normalized (b : Backend) (s : String) (q : Quote)
    (h : fetchQuote b s = .ok q) :
    q.symbol = pyUpper (pyStrip s) := by
  obtain ⟨-, -, last, prev, -, hqe⟩ := fetchQuote_ok_elim b s q h
  rw [hqe]

/-- C7 (witness): `"  aapl "` yields symbol `"AAPL"`. -/
theorem symbol_normalized_witness :
    quoteStd.symbol = pyUpper (pyStrip "  aapl ") :=
  symbol_normalized bStd "  aapl " quoteStd fetchQuote_bStd

/-- C8: `render_quote` formats the numeric line as the price to two decimals,
then a sign character (`+` for positive, `-` for negative, empty for zero)
followed by the absolute change to two decimals, and the same convention for
the percent in parentheses.  Concretely, change `-1.2345` renders as `-1.23`
with a leading `-`, and change `0` renders with no sign character. -/
theorem render_sign_convention :
    (∀ ts q, renderQuote ts q =
      ts ++ "\n\n" ++ q.company ++ "\n\n"
        ++ fmt2 q.price ++ " "
        ++ (if 0 < q.change then "+" else if q.change < 0 then "-" else "")
        ++ fmt2 |q.change|
        ++ " (" ++ (if 0 < q.percent then "+" else if q.percent < 0 then "-" else "")
        ++ fmt2 |q.percent| ++ "%)\n") ∧
    renderQuote "T" ⟨"S", "C", 10, -(12345/10000), -5/2⟩
      = "T\n\nC\n\n10.00 -1.23 (-2.50%)\n" ∧
    renderQuote "T" ⟨"S", "C", 10, 0, 0⟩ = "T\n\nC\n\n10.00 0.00 (0.00%)\n" := by
  refine ⟨fun ts q => rfl, ?_, ?_⟩
  · norm_num [renderQuote, signStr, fmt2, roundHalfEven, Int.floor_eq_iff,
      abs_of_nonpos, abs_of_nonneg]
    all_goals decide
  · norm_num [renderQuote, signStr, fmt2, roundHalfEven, Int.floor_eq_iff,
      abs_of_nonpos, abs_of_nonneg]
    all_goals decide

/-- C9: for every backend behaviour and input, `fetch_quote` either returns a
`Quote` or fails with a `QuoteError`: an exception while constructing the
ticker is wrapped as `Error retrieving data for SYMBOL: ...`, and an exception
from the history lookup is wrapped by `_get_prices_safe` as
`No valid price data found. (...)`. -/
theorem fetch_total (b : Backend) (s : String) :
    ((∃ q, fetchQuote b s = .ok q) ∨ (∃ m, fetchQuote b s = .error m)) ∧
    (∀ e, b.tickerError = some e → pyStrip s ≠ "" →
      fetchQuote b s = .error ("Error retrieving data for "
        ++ pyUpper (pyStrip s) ++ ": " ++ e)) ∧
    (∀ e, b.histResult = .error e →
      getPricesSafe b = .error ("No valid price data found. (" ++ e ++ ")")) := by
  refine ⟨?_, ?_, ?_⟩
  · cases h : fetchQuote b s with
    | ok q => exact .inl ⟨q, rfl⟩
    | error m => exact .inr ⟨m, rfl⟩
  · intro e hte hs
    simp [fetchQuote, hs, hte]
  · intro e he
    simp [getPricesSafe, he]

/-- C9 (witness): a raising ticker constructor surfaces as a wrapped
`QuoteError`, not an unhandled exception. -/
theorem fetch_total_witness :
    fetchQuote bBoom "t" = .error ("Error retrieving data for "
      ++ pyUpper (pyStrip "t") ++ ": " ++ "boom") :=
  (fetch_total bBoom "t").2.1 "boom" rfl (by decide)

/-- C10: the company field of every returned quote is the resolved display
name immediately followed by the parenthesized symbol, and is therefore never
equal to the bare display name. -/
theorem company_always_suffixed (b : Backend) (s : String) (q : Quote)
    (h : fetchQuote b s = .ok q) :
    q.company = getNameSafe b (pyUpper (pyStrip s)) ++ " (" ++ q.symbol ++ ")" ∧
    q.company ≠ getNameSafe b (pyUpper (pyStrip s)) := by
  obtain ⟨-, -, last, prev, -, hqe⟩ := fetchQuote_ok_elim b s q h
  subst hqe
  refine ⟨rfl, ?_⟩
  intro heq
  have hlen := congrArg String.length heq
  simp only [String.length_append,
    show (" (" : String).length = 2 from rfl,
    show ((")") : String).length = 1 from rfl] at hlen
  omega

/-- C10 (witness): on `bStd`, the company field `"Apple Inc. (AAPL)"` differs
from the bare display name. -/
theorem company_always_suffixed_witness :
    quoteStd.company ≠ getNameSafe bStd (pyUpper (pyStrip "  aapl ")) :=
  (company_always_suffixed bStd "  aapl " quoteStd fetchQuote_bStd).2
